import Mathlib

/-!
Verification of the OAuth-Login-API authentication core against its
natural-language specification.  The TypeScript source is shallowly
embedded: the relational store (schema.sql) becomes a `Store` of lists,
SQL queries from `auth/repo.ts` become list operations, and the request
handlers from `auth/routes.ts` become pure functions over an explicit
request/response model.  Network fetches and the SHA-256 builtin are
inputs or parameters: handlers take the already-decoded provider
responses, and the session layer is parametric in the hash function.
-/

namespace OAuthAPI

/-! ## Data model (schema.sql / repo.ts) -/

/-- Row of the `users` table.  Timestamps are naturals (ms since epoch). -/
structure User where
  id : Nat
  email : String
  name : Option String
  avatar_url : Option String
  created_at : Nat
  updated_at : Nat
deriving Repr, DecidableEq

/-- Row of the `oauth_accounts` table (a ProviderLink). -/
structure OAuthAccount where
  id : Nat
  user_id : Nat
  provider : String
  provider_user_id : String
  created_at : Nat
deriving Repr, DecidableEq

/-- Row of the `sessions` table.  Only a hash of the bearer token is kept. -/
structure Session where
  id : Nat
  user_id : Nat
  token_hash : String
  expires_at : Nat
  created_at : Nat
deriving Repr, DecidableEq

/-- The whole relational state, with the SERIAL counters made explicit. -/
structure Store where
  users : List User
  oauth_accounts : List OAuthAccount
  sessions : List Session
  nextUserId : Nat
  nextOAuthId : Nat
  nextSessionId : Nat
deriving Repr, DecidableEq

/-! ## Token/crypto primitives (utils/crypto.ts)

`crypto.timingSafeEqual(Buffer.from(a), Buffer.from(b))` throws when the
byte lengths differ (modelled by `none`) and otherwise reports byte-wise
equality; we model the byte buffers by the character lists of the
strings. -/

/-- Node's `crypto.timingSafeEqual`: `none` models the thrown `RangeError`
on unequal lengths, otherwise content equality. -/
def timingSafeEqual (a b : List Char) : Option Bool :=
  if a.length = b.length then some (a == b) else none

/-- Embeds `constantTimeCompare` from `utils/crypto.ts`: length check,
then `timingSafeEqual` with the catch-all returning `false`. -/
def constantTimeCompare (a b : String) : Bool :=
  if a.length != b.length then
    false
  else
    match timingSafeEqual a.data b.data with
    | some r => r
    | none => false

/-! ## Account store queries (auth/repo.ts)

Each function embeds one SQL query from `repo.ts`.  `LIMIT 1` on a
`SELECT` becomes `List.find?`; an `INSERT ... RETURNING *` appends a row
built from the SERIAL counter; JS falsiness of a string is emptiness. -/

/-- SELECT * FROM users WHERE email = $1 LIMIT 1. -/
def findUserByEmail (st : Store) (email : String) : Option User :=
  st.users.find? (fun u => u.email == email)

/-- SELECT * FROM users WHERE id = $1 LIMIT 1. -/
def findUserById (st : Store) (userId : Nat) : Option User :=
  st.users.find? (fun u => u.id == userId)

/-- SELECT * FROM oauth_accounts WHERE provider = $1 AND provider_user_id = $2 LIMIT 1. -/
def findOAuthAccount (st : Store) (provider providerUserId : String) : Option OAuthAccount :=
  st.oauth_accounts.find? (fun a => a.provider == provider && a.provider_user_id == providerUserId)

/-- INSERT INTO sessions (user_id, token_hash, expires_at, created_at). -/
def createSession (st : Store) (userId : Nat) (tokenHash : String) (expiresAt now : Nat) :
    Session × Store :=
  let s : Session := ⟨st.nextSessionId, userId, tokenHash, expiresAt, now⟩
  (s, { st with sessions := st.sessions ++ [s], nextSessionId := st.nextSessionId + 1 })

/-- SELECT s.*, user FROM sessions s JOIN users u ON u.id = s.user_id
WHERE s.token_hash = $1 AND s.expires_at > NOW() LIMIT 1.  A session row
whose user is missing is dropped by the inner join; the `token_hash`
uniqueness constraint means at most one row matches the hash. -/
def findSessionByTokenHash (st : Store) (tokenHash : String) (now : Nat) :
    Option (Session × User) :=
  match st.sessions.find? (fun s => s.token_hash == tokenHash && decide (now < s.expires_at)) with
  | none => none
  | some s =>
    match findUserById st s.user_id with
    | none => none
    | some u => some (s, u)

/-- DELETE FROM sessions WHERE token_hash = $1. -/
def deleteSessionByTokenHash (st : Store) (tokenHash : String) : Store :=
  { st with sessions := st.sessions.filter (fun s => s.token_hash != tokenHash) }

/-! ## Session manager (auth/sessions.ts)

The SHA-256 builtin is not part of the repository, so the session layer
is parametric in the hash function `hashToken`; the random raw token is
an explicit input (`rawToken`), and `ttl` stands for
`config.session.expiryMs`.  Cookie side effects are modelled at the
route layer. -/

/-- Embeds `createUserSession`: hash the raw token, store the session
with expiry `now + ttl`, hand the raw token back for cookie delivery. -/
def createUserSession (hashToken : String → String) (st : Store) (userId : Nat)
    (rawToken : String) (now ttl : Nat) : String × Store :=
  let tokenHash := hashToken rawToken
  let expiresAt := now + ttl
  let st' := (createSession st userId tokenHash expiresAt now).2
  (rawToken, st')

/-- Embeds `validateSession`: an empty (JS-falsy) token yields none,
otherwise look the hash up (the query also joins the user and discards
expired rows). -/
def validateSession (hashToken : String → String) (st : Store) (sessionToken : String)
    (now : Nat) : Option User :=
  if sessionToken = "" then none
  else
    match findSessionByTokenHash st (hashToken sessionToken) now with
    | none => none
    | some su => some su.2

/-- Embeds `revokeSession` (without its cookie-clearing side effect):
delete the row for the token's hash; an empty token deletes nothing. -/
def revokeSession (hashToken : String → String) (st : Store) (sessionToken : String) : Store :=
  if sessionToken = "" then st
  else deleteSessionByTokenHash st (hashToken sessionToken)

/-! ## Identity reconciliation (findOrCreateUserFromOAuth, auth/repo.ts)

The function runs inside one BEGIN/COMMIT transaction and rolls back on
any error.  Database failures are injected through `TxFaults`: each flag
makes the correspondingly named `client.query` call throw when it is
reached.  A raised error reaches the catch block, which issues ROLLBACK
and rethrows, so the function then yields `Except.error` together with
the unchanged store.  The inline SQL of the transaction body is the same
as in the repo helpers above, so those helpers are reused. -/

/-- Arguments of `findOrCreateUserFromOAuth`. -/
structure OAuthParams where
  provider : String
  providerUserId : String
  email : String
  name : Option String
  avatarUrl : Option String
deriving Repr, DecidableEq

/-- Fault-injection oracle: which of the transaction's queries throw. -/
structure TxFaults where
  selAccount : Bool
  selUserById : Bool
  updUser : Bool
  selUserByEmail : Bool
  insUser : Bool
  insAccount : Bool
  commit : Bool
deriving Repr, DecidableEq

/-- The no-failure oracle. -/
def noFaults : TxFaults := ⟨false, false, false, false, false, false, false⟩

/-- JS string truthiness for a nullable string (`params.name ||
params.avatarUrl`): null and the empty string are falsy. -/
def truthy : Option String → Bool
  | none => false
  | some s => !(s == "")

/-- SQL COALESCE of a nullable parameter with the current column value. -/
def coalesce : Option String → Option String → Option String
  | some v, _ => some v
  | none, old => old

/-- Embeds `findOrCreateUserFromOAuth`.  Branches: (a) the provider link
exists — load its user and, when a truthy name or avatar was supplied,
COALESCE-update that user; (b) no link but a user with the email exists
— link the new provider identity to that user, leaving the user row
untouched; (c) neither — insert the user, then the link.  A link whose
user row is missing cannot exist under the FK constraint; the code
would throw on it (undefined dereference), which the model folds into
the error result. -/
def findOrCreateUserFromOAuth (f : TxFaults) (st : Store) (p : OAuthParams) (now : Nat) :
    Except Unit User × Store :=
  if f.selAccount then (Except.error (), st)
  else
    match findOAuthAccount st p.provider p.providerUserId with
    | some acct =>
      if f.selUserById then (Except.error (), st)
      else
        match findUserById st acct.user_id with
        | none => (Except.error (), st)
        | some u =>
          if truthy p.name || truthy p.avatarUrl then
            if f.updUser then (Except.error (), st)
            else
              let u' : User := { u with
                name := coalesce p.name u.name,
                avatar_url := coalesce p.avatarUrl u.avatar_url,
                updated_at := now }
              let st' : Store :=
                { st with users := st.users.map (fun v => if v.id == u.id then u' else v) }
              if f.commit then (Except.error (), st) else (Except.ok u', st')
          else
            if f.commit then (Except.error (), st) else (Except.ok u, st)
    | none =>
      if f.selUserByEmail then (Except.error (), st)
      else
        match findUserByEmail st p.email with
        | some u =>
          if f.insAccount then (Except.error (), st)
          else
            let acct : OAuthAccount :=
              ⟨st.nextOAuthId, u.id, p.provider, p.providerUserId, now⟩
            let st' : Store := { st with
              oauth_accounts := st.oauth_accounts ++ [acct],
              nextOAuthId := st.nextOAuthId + 1 }
            if f.commit then (Except.error (), st) else (Except.ok u, st')
        | none =>
          if f.insUser then (Except.error (), st)
          else
            let u : User :=
              ⟨st.nextUserId, p.email, p.name, p.avatarUrl, now, now⟩
            let st1 : Store := { st with
              users := st.users ++ [u],
              nextUserId := st.nextUserId + 1 }
            if f.insAccount then (Except.error (), st)
            else
              let acct : OAuthAccount :=
                ⟨st1.nextOAuthId, u.id, p.provider, p.providerUserId, now⟩
              let st2 : Store := { st1 with
                oauth_accounts := st1.oauth_accounts ++ [acct],
                nextOAuthId := st1.nextOAuthId + 1 }
              if f.commit then (Except.error (), st) else (Except.ok u, st2)

/-! ## Provider adapters (auth/oauthGoogle.ts, auth/oauthGithub.ts)

The adapters perform network fetches; the embedding takes the decoded
provider responses as inputs.  Code exchange is a function argument
`Except String String` (the access token or the thrown exchange error),
and the profile endpoints become functions from the access token to the
decoded JSON payloads. -/

/-- Normalized profile shape both adapters produce. -/
structure NormalizedProfile where
  providerId : String
  email : String
  name : String
  avatarUrl : String
deriving Repr, DecidableEq

/-- Google userinfo JSON payload. -/
structure GoogleUserProfile where
  id : String
  email : String
  verified_email : Bool
  name : String
  picture : String
deriving Repr, DecidableEq

/-- Embeds `getGoogleUserProfile` past the fetch: reject unverified
emails, otherwise normalize. -/
def getGoogleUserProfile (profile : GoogleUserProfile) : Except String NormalizedProfile :=
  if !profile.verified_email then Except.error "Google email is not verified"
  else Except.ok ⟨profile.id, profile.email, profile.name, profile.picture⟩

/-- GitHub user JSON payload. -/
structure GitHubUserProfile where
  id : Nat
  login : String
  name : Option String
  email : Option String
  avatar_url : String
deriving Repr, DecidableEq

/-- One entry of the GitHub email-list JSON payload. -/
structure GitHubUserEmail where
  email : String
  primary : Bool
  verified : Bool
deriving Repr, DecidableEq

/-- Embeds `getGitHubUserEmail` past the fetch: first email flagged both
primary and verified, else the no-verified-email error. -/
def getGitHubUserEmail (emails : List GitHubUserEmail) : Except String String :=
  match emails.find? (fun e => e.primary && e.verified) with
  | some e => Except.ok e.email
  | none => Except.error "No verified email found in GitHub account"

/-- Embeds `getGitHubUserProfile`: combine the user payload with the
selected email (a failed email selection fails the whole fetch, as with
Promise.all); display name falls back to the login handle when the
profile name is null or empty. -/
def getGitHubUserProfile (userInfo : GitHubUserProfile) (emails : List GitHubUserEmail) :
    Except String NormalizedProfile :=
  match getGitHubUserEmail emails with
  | Except.error e => Except.error e
  | Except.ok email =>
    Except.ok ⟨toString userInfo.id, email,
      (match userInfo.name with
       | some nm => if nm == "" then userInfo.login else nm
       | none => userInfo.login),
      userInfo.avatar_url⟩

/-- Embeds `handleGoogleCallback`: exchange the code, then fetch the
profile with the obtained token. -/
def handleGoogleCallback (exchangeGoogleCode : String → Except String String)
    (googleProfileOf : String → GoogleUserProfile) (code : String) :
    Except String NormalizedProfile :=
  match exchangeGoogleCode code with
  | Except.error e => Except.error e
  | Except.ok accessToken => getGoogleUserProfile (googleProfileOf accessToken)

/-- Embeds `handleGitHubCallback`: exchange the code, then fetch profile
and email list with the obtained token. -/
def handleGitHubCallback (exchangeGitHubCode : String → Except String String)
    (githubProfileOf : String → GitHubUserProfile)
    (githubEmailsOf : String → List GitHubUserEmail) (code : String) :
    Except String NormalizedProfile :=
  match exchangeGitHubCode code with
  | Except.error e => Except.error e
  | Except.ok accessToken =>
    getGitHubUserProfile (githubProfileOf accessToken) (githubEmailsOf accessToken)

/-! ## OAuth flow controller and auth middleware (auth/routes.ts)

A callback request carries the two query parameters and the
`oauth_state` cookie; `none` models a missing or non-string value.  The
result records the HTTP status, the response body's error/success
message, whether `clearOAuthStateCookie` ran, the session cookie set
(holding the raw token), whether the provider flow was invoked, and the
resulting store. -/

/-- Inputs of a callback request. -/
structure CallbackRequest where
  code : Option String
  state : Option String
  cookieState : Option String
deriving Repr, DecidableEq

/-- Observable outcome of a callback request. -/
structure CallbackResult where
  status : Nat
  body : String
  clearedOAuthState : Bool
  sessionCookie : Option String
  providerCalled : Bool
  store : Store
deriving Repr, DecidableEq

/-- Embeds the `/auth/google/callback` and `/auth/github/callback`
handlers, which differ only in the provider name and flow function:
guard code, guard state, guard the state cookie and compare it, clear
the state cookie, run the provider flow, reconcile, issue the session.
Any error after the guards lands in the catch block, which clears the
state cookie again and answers 500. -/
def oauthCallback (hashToken : String → String) (provider : String)
    (completeFlow : String → Except String NormalizedProfile) (f : TxFaults)
    (req : CallbackRequest) (st : Store) (freshToken : String) (now ttl : Nat) :
    CallbackResult :=
  match req.code with
  | none => ⟨400, "Missing authorization code", false, none, false, st⟩
  | some code =>
    if code = "" then ⟨400, "Missing authorization code", false, none, false, st⟩
    else
      match req.state with
      | none => ⟨400, "Missing state parameter", false, none, false, st⟩
      | some state =>
        if state = "" then ⟨400, "Missing state parameter", false, none, false, st⟩
        else
          match req.cookieState with
          | none => ⟨400, "Invalid state parameter", false, none, false, st⟩
          | some stored =>
            if stored = "" ∨ stored ≠ state then
              ⟨400, "Invalid state parameter", false, none, false, st⟩
            else
              match completeFlow code with
              | Except.error _ => ⟨500, provider ++ " login failed", true, none, true, st⟩
              | Except.ok profile =>
                match findOrCreateUserFromOAuth f st
                    ⟨provider, profile.providerId, profile.email, some profile.name,
                     some profile.avatarUrl⟩ now with
                | (Except.error _, st') =>
                  ⟨500, provider ++ " login failed", true, none, true, st'⟩
                | (Except.ok user, st') =>
                  let st2 := (createUserSession hashToken st' user.id freshToken now ttl).2
                  ⟨200, "success", true, some freshToken, true, st2⟩

/-- What the auth middleware does with a request: answer early or hand
the attached user to the next handler. -/
inductive AuthOutcome where
  | response (status : Nat) (body : String)
  | next (user : User)
deriving Repr, DecidableEq

/-- Embeds `requireAuth`: a missing or JS-falsy session cookie answers
401 Unauthorized; a token that fails validation answers 401 with the
invalid-or-expired message; otherwise the user is attached. -/
def requireAuth (hashToken : String → String) (st : Store) (cookie : Option String)
    (now : Nat) : AuthOutcome :=
  match cookie with
  | none => AuthOutcome.response 401 "Unauthorized"
  | some tok =>
    if tok = "" then AuthOutcome.response 401 "Unauthorized"
    else
      match validateSession hashToken st tok now with
      | none => AuthOutcome.response 401 "Invalid or expired session"
      | some u => AuthOutcome.next u

/-! ## Concrete fixtures used by the witnesses -/

/-- A sample user row. -/
def user0 : User := ⟨1, "a@x.com", some "A", none, 0, 0⟩

/-- A store holding just `user0`, no links, no sessions. -/
def store0 : Store := ⟨[user0], [], [], 2, 1, 1⟩

/-- The empty store. -/
def emptyStore : Store := ⟨[], [], [], 1, 1, 1⟩

/-- Sample reconciliation arguments. -/
def params0 : OAuthParams := ⟨"google", "sub1", "b@y.com", some "B", some "av"⟩

/-- Reconciliation arguments whose email matches `user0`. -/
def paramsLink : OAuthParams := ⟨"github", "g1", "a@x.com", none, none⟩

/-- The oracle under which only COMMIT fails. -/
def faultsCommit : TxFaults := ⟨false, false, false, false, false, false, true⟩

/-! ## Claim C9 -/

/-- Length of a string built from a character list. -/
theorem strLength_mk (l : List Char) : String.length ⟨l⟩ = l.length := rfl

/-- Data of a string built from a character list. -/
theorem strData_mk (l : List Char) : String.data ⟨l⟩ = l := rfl

/-- Strings are equal iff their character lists are. -/
theorem strMk_inj (la lb : List Char) : (⟨la⟩ : String) = ⟨lb⟩ ↔ la = lb :=
  ⟨fun h => by cases h; rfl, fun h => by cases h; rfl⟩

/-- Claim C9: `constantTimeCompare a b` is `true` iff `a = b`; it is
`true` on two empty strings; and whenever the lengths differ it returns
`false` (the thrown-error path is absorbed into `false`). -/
theorem c9_constantTimeCompare_iff_eq :
    (∀ a b : String, constantTimeCompare a b = true ↔ a = b)
    ∧ constantTimeCompare "" "" = true
    ∧ (∀ a b : String, a.length ≠ b.length → constantTimeCompare a b = false) := by
  refine ⟨fun a b => ?_, by decide, fun a b h => ?_⟩
  · cases a with | mk la => cases b with | mk lb =>
    unfold constantTimeCompare timingSafeEqual
    by_cases hl : la.length = lb.length
    · simp [strLength_mk, strData_mk, hl, beq_iff_eq, strMk_inj]
    · have hne : (String.mk la) ≠ ⟨lb⟩ := by
        intro h; apply hl; cases h; rfl
      simp [strLength_mk, strData_mk, hl, hne]
  · cases a with | mk la => cases b with | mk lb =>
    unfold constantTimeCompare
    have hl : ¬ la.length = lb.length := by
      intro he; exact h (by simpa [strLength_mk] using he)
    simp [strLength_mk, hl]

/-- Witness for claim C9 at concrete inputs. -/
theorem c9_constantTimeCompare_iff_eq_witness :
    constantTimeCompare "ab" "a" = false :=
  c9_constantTimeCompare_iff_eq.2.2 "ab" "a" (by decide)

/-! ## Session-lifecycle lemmas -/

/-- List.find? returns a designated element when it is the only one
satisfying the test. -/
theorem find?_of_unique {α} (p : α → Bool) (l : List α) (a : α)
    (ha : a ∈ l) (hpa : p a = true) (huniq : ∀ b ∈ l, p b = true → b = a) :
    l.find? p = some a := by
  induction l with
  | nil => cases ha
  | cons x xs ih =>
    cases hp : p x with
    | true =>
      have hxa : x = a := huniq x (List.mem_cons_self x xs) hp
      subst hxa
      simp [List.find?_cons, hp]
    | false =>
      have hax : a ≠ x := by
        intro h; rw [h, hp] at hpa; cases hpa
      have ha' : a ∈ xs := by
        rcases List.mem_cons.1 ha with h | h
        · exact absurd h hax
        · exact h
      simp only [List.find?_cons, hp]
      exact ih ha' (fun b hb hpb => huniq b (List.mem_cons_of_mem x hb) hpb)

/-- An empty token validates to none. -/
theorem validateSession_empty (hashToken : String → String) (st : Store) (now : Nat) :
    validateSession hashToken st "" now = none := by
  simp [validateSession]

/-- If every session row either has a different hash or is already
expired, validation yields none. -/
theorem validateSession_absent (hashToken : String → String) (st : Store) (tok : String)
    (now : Nat)
    (h : ∀ s ∈ st.sessions, s.token_hash ≠ hashToken tok ∨ s.expires_at ≤ now) :
    validateSession hashToken st tok now = none := by
  by_cases he : tok = ""
  · simp [validateSession, he]
  · have hnone : st.sessions.find?
        (fun s => s.token_hash == hashToken tok && decide (now < s.expires_at)) = none := by
      rw [List.find?_eq_none]
      intro s hs
      rcases h s hs with h' | h'
      · simp [beq_iff_eq, h']
      · simp [Nat.not_lt.2 h']
    simp [validateSession, findSessionByTokenHash, he, hnone]

/-- Issuing a session for an existing user with a fresh token and then
validating that raw token immediately yields the originating user. -/
theorem validateSession_roundtrip (hashToken : String → String) (st : Store) (uid : Nat)
    (tok : String) (now ttl : Nat) (u : User)
    (htok : tok ≠ "") (httl : 0 < ttl)
    (hu : findUserById st uid = some u)
    (hfresh : ∀ s ∈ st.sessions, s.token_hash ≠ hashToken tok) :
    validateSession hashToken (createUserSession hashToken st uid tok now ttl).2 tok now
      = some u := by
  have hlt : now < now + ttl := Nat.lt_add_of_pos_right httl
  have hnone : st.sessions.find?
      (fun s => s.token_hash == hashToken tok && decide (now < s.expires_at)) = none := by
    rw [List.find?_eq_none]
    intro s hs
    simp [beq_iff_eq]
    intro hc
    exact absurd hc (hfresh s hs)
  simp [validateSession, createUserSession, createSession, findSessionByTokenHash,
    htok, List.find?_append, hnone, hlt, findUserById] at hu ⊢
  rw [hu]

/-- Validating after revoking the same token yields none. -/
theorem validateSession_after_revoke (hashToken : String → String) (st : Store)
    (tok : String) (now : Nat) :
    validateSession hashToken (revokeSession hashToken st tok) tok now = none := by
  by_cases he : tok = ""
  · simp [validateSession, he]
  · have hnone : (st.sessions.filter (fun s => s.token_hash != hashToken tok)).find?
        (fun s => s.token_hash == hashToken tok && decide (now < s.expires_at)) = none := by
      rw [List.find?_eq_none]
      intro s hs
      have := List.of_mem_filter hs
      simp [bne_iff_ne] at this
      simp [beq_iff_eq, this]
    simp [validateSession, revokeSession, deleteSessionByTokenHash, findSessionByTokenHash,
      he, hnone]

/-- When a unique unexpired row matches the token hash and its user row
exists, validation returns that joined user. -/
theorem validateSession_joined (hashToken : String → String) (st : Store) (tok : String)
    (now : Nat) (s : Session) (u : User)
    (htok : tok ≠ "") (hs : s ∈ st.sessions) (hh : s.token_hash = hashToken tok)
    (hexp : now < s.expires_at)
    (huniq : ∀ s' ∈ st.sessions, s'.token_hash = hashToken tok → s' = s)
    (hu : findUserById st s.user_id = some u) :
    validateSession hashToken st tok now = some u := by
  have hfind : st.sessions.find?
      (fun s' => s'.token_hash == hashToken tok && decide (now < s'.expires_at)) = some s := by
    apply find?_of_unique _ _ _ hs
    · simp [beq_iff_eq, hh, hexp]
    · intro b hb hpb
      simp [beq_iff_eq] at hpb
      exact huniq b hb hpb.1
  simp [validateSession, findSessionByTokenHash, htok, hfind, hu]

/-- Claim C1: session lifecycle round-trip.  For any hash function:
validating an empty token yields none; validating a token whose row is
absent or expired yields none; issuing a session for an existing user
and immediately validating the returned raw token yields the
originating user; validating after revoke yields none; and otherwise
validation returns the joined user. -/
theorem c1_session_lifecycle (hashToken : String → String) :
    (∀ st now, validateSession hashToken st "" now = none)
    ∧ (∀ st tok now,
        (∀ s ∈ st.sessions, s.token_hash ≠ hashToken tok ∨ s.expires_at ≤ now) →
        validateSession hashToken st tok now = none)
    ∧ (∀ st uid tok now ttl u,
        tok ≠ "" → 0 < ttl →
        findUserById st uid = some u →
        (∀ s ∈ st.sessions, s.token_hash ≠ hashToken tok) →
        validateSession hashToken (createUserSession hashToken st uid tok now ttl).2 tok now
          = some u)
    ∧ (∀ st tok now,
        validateSession hashToken (revokeSession hashToken st tok) tok now = none)
    ∧ (∀ st tok now s u,
        tok ≠ "" → s ∈ st.sessions → s.token_hash = hashToken tok → now < s.expires_at →
        (∀ s' ∈ st.sessions, s'.token_hash = hashToken tok → s' = s) →
        findUserById st s.user_id = some u →
        validateSession hashToken st tok now = some u) :=
  ⟨fun st now => validateSession_empty hashToken st now,
   fun st tok now h => validateSession_absent hashToken st tok now h,
   fun st uid tok now ttl u h1 h2 h3 h4 =>
     validateSession_roundtrip hashToken st uid tok now ttl u h1 h2 h3 h4,
   fun st tok now => validateSession_after_revoke hashToken st tok now,
   fun st tok now s u h1 h2 h3 h4 h5 h6 =>
     validateSession_joined hashToken st tok now s u h1 h2 h3 h4 h5 h6⟩

/-- Witness for claim C1: issue then validate at a concrete store. -/
theorem c1_session_lifecycle_witness :
    validateSession (fun s => s) ((createUserSession (fun s => s) store0 1 "t" 0 5).2) "t" 0
      = some user0 :=
  (c1_session_lifecycle (fun s => s)).2.2.1 store0 1 "t" 0 5 user0 (by decide) (by decide)
    (by decide) (by intro s hs; simp [store0] at hs)

/-! ## Reconciliation claims -/

/-- Claim C4: reconciliation merge.  With no existing link for
(provider, providerId) but a user matching the email, no user row is
created, a link pointing at that user is appended, and that user is
returned; consequently a Google login on a fresh email followed by a
GitHub login with the same email and a different subject id leaves one
user carrying two links. -/
theorem c4_email_merge :
    (∀ st p now u,
      findOAuthAccount st p.provider p.providerUserId = none →
      findUserByEmail st p.email = some u →
      (findOrCreateUserFromOAuth noFaults st p now).1 = Except.ok u ∧
      (findOrCreateUserFromOAuth noFaults st p now).2.users = st.users ∧
      (findOrCreateUserFromOAuth noFaults st p now).2.oauth_accounts
        = st.oauth_accounts ++ [⟨st.nextOAuthId, u.id, p.provider, p.providerUserId, now⟩])
    ∧ (∀ st e n a pid1 pid2 now1 now2,
        findUserByEmail st e = none →
        findOAuthAccount st "google" pid1 = none →
        findOAuthAccount st "github" pid2 = none →
        (findOrCreateUserFromOAuth noFaults st ⟨"google", pid1, e, n, a⟩ now1).1
          = Except.ok ⟨st.nextUserId, e, n, a, now1, now1⟩ ∧
        (findOrCreateUserFromOAuth noFaults
            (findOrCreateUserFromOAuth noFaults st ⟨"google", pid1, e, n, a⟩ now1).2
            ⟨"github", pid2, e, n, a⟩ now2).1
          = Except.ok ⟨st.nextUserId, e, n, a, now1, now1⟩ ∧
        (findOrCreateUserFromOAuth noFaults
            (findOrCreateUserFromOAuth noFaults st ⟨"google", pid1, e, n, a⟩ now1).2
            ⟨"github", pid2, e, n, a⟩ now2).2.users
          = st.users ++ [⟨st.nextUserId, e, n, a, now1, now1⟩] ∧
        (findOrCreateUserFromOAuth noFaults
            (findOrCreateUserFromOAuth noFaults st ⟨"google", pid1, e, n, a⟩ now1).2
            ⟨"github", pid2, e, n, a⟩ now2).2.oauth_accounts
          = st.oauth_accounts
            ++ [⟨st.nextOAuthId, st.nextUserId, "google", pid1, now1⟩,
                ⟨st.nextOAuthId + 1, st.nextUserId, "github", pid2, now2⟩]) := by
  constructor
  · intro st p now u hacct hu
    simp [findOrCreateUserFromOAuth, noFaults, hacct, hu]
  · intro st e n a pid1 pid2 now1 now2 h1 h2 h3
    simp only [findUserByEmail] at h1
    simp only [findOAuthAccount] at h2 h3
    have hgg : (("google" : String) == "github") = false := by decide
    simp [findOrCreateUserFromOAuth, noFaults, findOAuthAccount, findUserByEmail,
      List.find?_append, h1, h2, h3, hgg]

/-- Witness for claim C4 at a concrete store. -/
theorem c4_email_merge_witness :
    (findOrCreateUserFromOAuth noFaults store0 paramsLink 3).1 = Except.ok user0 :=
  (c4_email_merge.1 store0 paramsLink 3 user0 (by decide) (by decide)).1

/-- Claim C5: reconciliation idempotence.  Starting from a store in
which neither the link nor the email exists, running reconcile twice
with the same arguments yields the same user id both times and leaves
exactly one extra user row and one extra link row in total. -/
theorem c5_reconcile_idempotent :
    ∀ st p now1 now2,
      findOAuthAccount st p.provider p.providerUserId = none →
      findUserByEmail st p.email = none →
      (∀ u ∈ st.users, u.id ≠ st.nextUserId) →
      ∃ u1 u2,
        (findOrCreateUserFromOAuth noFaults st p now1).1 = Except.ok u1 ∧
        (findOrCreateUserFromOAuth noFaults
            (findOrCreateUserFromOAuth noFaults st p now1).2 p now2).1 = Except.ok u2 ∧
        u1.id = u2.id ∧
        (findOrCreateUserFromOAuth noFaults
            (findOrCreateUserFromOAuth noFaults st p now1).2 p now2).2.users.length
          = st.users.length + 1 ∧
        (findOrCreateUserFromOAuth noFaults
            (findOrCreateUserFromOAuth noFaults st p now1).2 p now2).2.oauth_accounts.length
          = st.oauth_accounts.length + 1 := by
  intro st p now1 now2 hacct hmail hid
  simp only [findOAuthAccount] at hacct
  simp only [findUserByEmail] at hmail
  have hidnone : st.users.find? (fun v => v.id == st.nextUserId) = none := by
    rw [List.find?_eq_none]
    intro u hu
    simp [beq_iff_eq]
    exact hid u hu
  cases htr : (truthy p.name || truthy p.avatarUrl) with
  | true =>
    refine ⟨⟨st.nextUserId, p.email, p.name, p.avatarUrl, now1, now1⟩,
      ⟨st.nextUserId, p.email, coalesce p.name p.name, coalesce p.avatarUrl p.avatarUrl,
        now1, now2⟩, ?_⟩
    simp [findOrCreateUserFromOAuth, noFaults, findOAuthAccount, findUserByEmail,
      findUserById, List.find?_append, hacct, hmail, hidnone, htr]
  | false =>
    refine ⟨⟨st.nextUserId, p.email, p.name, p.avatarUrl, now1, now1⟩,
      ⟨st.nextUserId, p.email, p.name, p.avatarUrl, now1, now1⟩, ?_⟩
    simp [findOrCreateUserFromOAuth, noFaults, findOAuthAccount, findUserByEmail,
      findUserById, List.find?_append, hacct, hmail, hidnone, htr]

/-- Witness for claim C5 at the empty store. -/
theorem c5_reconcile_idempotent_witness :
    ∃ u1 u2,
      (findOrCreateUserFromOAuth noFaults emptyStore params0 1).1 = Except.ok u1 ∧
      (findOrCreateUserFromOAuth noFaults
          (findOrCreateUserFromOAuth noFaults emptyStore params0 1).2 params0 2).1
        = Except.ok u2 ∧
      u1.id = u2.id ∧
      (findOrCreateUserFromOAuth noFaults
          (findOrCreateUserFromOAuth noFaults emptyStore params0 1).2 params0 2).2.users.length
        = emptyStore.users.length + 1 ∧
      (findOrCreateUserFromOAuth noFaults
          (findOrCreateUserFromOAuth noFaults emptyStore params0 1).2
          params0 2).2.oauth_accounts.length
        = emptyStore.oauth_accounts.length + 1 :=
  c5_reconcile_idempotent emptyStore params0 1 2 (by decide) (by decide)
    (by intro u hu; simp [emptyStore] at hu)

/-- Every run of the transaction either commits (no fault fired on its
path) or leaves the committed store untouched. -/
theorem findOrCreate_cases (f : TxFaults) (st : Store) (p : OAuthParams) (now : Nat) :
    (∃ u st', findOrCreateUserFromOAuth f st p now = (Except.ok u, st') ∧ f.commit = false)
    ∨ findOrCreateUserFromOAuth f st p now = (Except.error (), st) := by
  unfold findOrCreateUserFromOAuth
  repeat' split
  all_goals
    first
      | exact Or.inr rfl
      | (left
         refine ⟨_, _, rfl, ?_⟩
         simp_all)

/-- Claim C6: reconciliation atomicity.  If any step of the transaction
fails, the resulting store is exactly the original one (so no user row
without its link and no orphaned link) and the error is re-raised; in
particular a COMMIT failure yields the error result with the store
unchanged. -/
theorem c6_reconcile_atomic :
    ∀ f st p now,
      ((findOrCreateUserFromOAuth f st p now).1 = Except.error () →
        (findOrCreateUserFromOAuth f st p now).2 = st)
      ∧ (f.commit = true →
          (findOrCreateUserFromOAuth f st p now).1 = Except.error () ∧
          (findOrCreateUserFromOAuth f st p now).2 = st) := by
  intro f st p now
  rcases findOrCreate_cases f st p now with ⟨u, st', hok, hcommit⟩ | herr
  · constructor
    · intro h; rw [hok] at h; cases h
    · intro h; rw [hcommit] at h; cases h
  · rw [herr]
    exact ⟨fun _ => rfl, fun _ => ⟨rfl, rfl⟩⟩

/-- Witness for claim C6: a COMMIT failure on a concrete store. -/
theorem c6_reconcile_atomic_witness :
    (findOrCreateUserFromOAuth faultsCommit store0 params0 0).1 = Except.error () ∧
    (findOrCreateUserFromOAuth faultsCommit store0 params0 0).2 = store0 :=
  (c6_reconcile_atomic faultsCommit store0 params0 0).2 (by decide)

/-- Claim C10: frame property of the email-match branch.  When a new
provider identity is linked to an email-matched user, the users table
is left byte-for-byte unchanged (so name, avatar_url and updated_at are
untouched); the provider-supplied name/avatar are applied to an
existing user only in the already-linked branch. -/
theorem c10_email_match_frame :
    ∀ p now,
      (∀ st u, findOAuthAccount st p.provider p.providerUserId = none →
        findUserByEmail st p.email = some u →
        (findOrCreateUserFromOAuth noFaults st p now).2.users = st.users)
      ∧ (∀ st acct u, findOAuthAccount st p.provider p.providerUserId = some acct →
          findUserById st acct.user_id = some u →
          (truthy p.name || truthy p.avatarUrl) = true →
          (findOrCreateUserFromOAuth noFaults st p now).1 =
            Except.ok { u with
              name := coalesce p.name u.name,
              avatar_url := coalesce p.avatarUrl u.avatar_url,
              updated_at := now }) := by
  intro p now
  constructor
  · intro st u hacct hu
    simp [findOrCreateUserFromOAuth, noFaults, hacct, hu]
  · intro st acct u hacct hu htr
    simp [findOrCreateUserFromOAuth, noFaults, hacct, hu, htr]

/-- Witness for claim C10 at a concrete store. -/
theorem c10_email_match_frame_witness :
    (findOrCreateUserFromOAuth noFaults store0 paramsLink 3).2.users = store0.users :=
  (c10_email_match_frame paramsLink 3).1 store0 user0 (by decide) (by decide)

/-! ## Callback validation claims -/

/-- Claim C2: a callback with a missing/non-string code, a
missing/non-string state, an absent state cookie, or a state differing
from the cookie answers 400, invokes no provider flow, sets no session
cookie and leaves the store (users, links, sessions) unchanged.  The
guards also treat an empty string as missing, mirroring JS falsiness. -/
theorem c2_callback_validation_short_circuits :
    ∀ hashToken provider completeFlow f req st freshToken now ttl,
      (req.code = none ∨ req.code = some "" ∨ req.state = none ∨ req.state = some ""
        ∨ req.cookieState = none ∨ req.cookieState = some ""
        ∨ req.cookieState ≠ req.state) →
      (oauthCallback hashToken provider completeFlow f req st freshToken now ttl).status = 400
      ∧ (oauthCallback hashToken provider completeFlow f req st freshToken now
          ttl).providerCalled = false
      ∧ (oauthCallback hashToken provider completeFlow f req st freshToken now ttl).store = st
      ∧ (oauthCallback hashToken provider completeFlow f req st freshToken now
          ttl).sessionCookie = none := by
  intro hashToken provider completeFlow f req st freshToken now ttl h
  obtain ⟨c, s, cs⟩ := req
  cases c with
  | none => simp [oauthCallback]
  | some cv =>
    by_cases hc : cv = ""
    · simp [oauthCallback, hc]
    · cases s with
      | none => simp [oauthCallback, hc]
      | some sv =>
        by_cases hs : sv = ""
        · simp [oauthCallback, hc, hs]
        · cases cs with
          | none => simp [oauthCallback, hc, hs]
          | some csv =>
            by_cases hcs : csv = "" ∨ csv ≠ sv
            · simp [oauthCallback, hc, hs, hcs]
            · push_neg at hcs
              rcases h with h | h | h | h | h | h | h <;> simp_all

/-- Witness for claim C2: a state-mismatch request at a concrete store. -/
theorem c2_callback_validation_short_circuits_witness :
    (oauthCallback (fun s => s) "github" (fun _ => Except.error "x") noFaults
        ⟨some "c", some "s", some "other"⟩ store0 "t" 0 5).status = 400 ∧
    (oauthCallback (fun s => s) "github" (fun _ => Except.error "x") noFaults
        ⟨some "c", some "s", some "other"⟩ store0 "t" 0 5).providerCalled = false ∧
    (oauthCallback (fun s => s) "github" (fun _ => Except.error "x") noFaults
        ⟨some "c", some "s", some "other"⟩ store0 "t" 0 5).store = store0 ∧
    (oauthCallback (fun s => s) "github" (fun _ => Except.error "x") noFaults
        ⟨some "c", some "s", some "other"⟩ store0 "t" 0 5).sessionCookie = none :=
  c2_callback_validation_short_circuits (fun s => s) "github" (fun _ => Except.error "x")
    noFaults ⟨some "c", some "s", some "other"⟩ store0 "t" 0 5 (by decide)

/-- Counterexample to claim C3: a callback with a missing code answers
400 without ever clearing the oauth_state cookie — the early validation
returns precede the `clearOAuthStateCookie` call. -/
theorem c3_counterexample :
    (oauthCallback (fun s => s) "google" (fun _ => Except.error "x") noFaults
        ⟨none, some "s", some "s"⟩ store0 "t" 0 5).clearedOAuthState = false ∧
    (oauthCallback (fun s => s) "google" (fun _ => Except.error "x") noFaults
        ⟨none, some "s", some "s"⟩ store0 "t" 0 5).status = 400 :=
  ⟨rfl, rfl⟩

/-- Claim C3 as amended: the oauth_state cookie is cleared exactly on
the callbacks that get past parameter and state validation — success,
provider failure and reconciliation failure all clear it, while the
three early 400 validation responses do not. -/
theorem c3_state_cookie_cleared_amended :
    ∀ hashToken provider completeFlow f req st freshToken now ttl,
      (oauthCallback hashToken provider completeFlow f req st freshToken now
          ttl).clearedOAuthState = true
        ↔ (oauthCallback hashToken provider completeFlow f req st freshToken now ttl).status
            ≠ 400 := by
  intro hashToken provider completeFlow f req st freshToken now ttl
  obtain ⟨c, s, cs⟩ := req
  cases c with
  | none => simp [oauthCallback]
  | some cv =>
    by_cases hc : cv = ""
    · simp [oauthCallback, hc]
    · cases s with
      | none => simp [oauthCallback, hc]
      | some sv =>
        by_cases hs : sv = ""
        · simp [oauthCallback, hc, hs]
        · cases cs with
          | none => simp [oauthCallback, hc, hs]
          | some csv =>
            by_cases hcs : csv = "" ∨ csv ≠ sv
            · simp [oauthCallback, hc, hs, hcs]
            · cases hflow : completeFlow cv with
              | error e => simp [oauthCallback, hc, hs, hcs, hflow]
              | ok profile =>
                rcases hrec : findOrCreateUserFromOAuth f st
                    ⟨provider, profile.providerId, profile.email, some profile.name,
                      some profile.avatarUrl⟩ now with ⟨res, st'⟩
                cases res with
                | error e => simp [oauthCallback, hc, hs, hcs, hflow, hrec]
                | ok user => simp [oauthCallback, hc, hs, hcs, hflow, hrec]

/-! ## Auth middleware claim -/

/-- Counterexample to claim C7: the 401 responses are not identical
across failure causes — an absent cookie answers body "Unauthorized"
while an unknown token answers body "Invalid or expired session". -/
theorem c7_counterexample :
    requireAuth (fun s => s) store0 none 0 = AuthOutcome.response 401 "Unauthorized" ∧
    requireAuth (fun s => s) store0 (some "zzz") 0
      = AuthOutcome.response 401 "Invalid or expired session" ∧
    ("Unauthorized" : String) ≠ "Invalid or expired session" :=
  ⟨rfl, by decide, by decide⟩

/-- Claim C7 as amended: every failure of the auth middleware answers
status 401, but the body distinguishes a missing or empty cookie
("Unauthorized") from a token failing validation ("Invalid or expired
session"); unknown, tampered and expired tokens are mutually
indistinguishable, all mapping to the latter response. -/
theorem c7_amended_401_taxonomy :
    ∀ hashToken st cookie now,
      ((∀ u, requireAuth hashToken st cookie now ≠ AuthOutcome.next u) →
        (requireAuth hashToken st cookie now = AuthOutcome.response 401 "Unauthorized" ∨
          requireAuth hashToken st cookie now
            = AuthOutcome.response 401 "Invalid or expired session"))
      ∧ ((cookie = none ∨ cookie = some "") →
          requireAuth hashToken st cookie now = AuthOutcome.response 401 "Unauthorized")
      ∧ (∀ tok, cookie = some tok → tok ≠ "" →
          validateSession hashToken st tok now = none →
          requireAuth hashToken st cookie now
            = AuthOutcome.response 401 "Invalid or expired session") := by
  intro hashToken st cookie now
  refine ⟨?_, ?_, ?_⟩
  · intro hfail
    cases cookie with
    | none => exact Or.inl rfl
    | some tok =>
      by_cases ht : tok = ""
      · exact Or.inl (by simp [requireAuth, ht])
      · cases hv : validateSession hashToken st tok now with
        | none => exact Or.inr (by simp [requireAuth, ht, hv])
        | some u => exact absurd (by simp [requireAuth, ht, hv]) (hfail u)
  · rintro (rfl | rfl) <;> simp [requireAuth]
  · rintro tok rfl ht hv
    simp [requireAuth, ht, hv]

/-- Witness for the amended claim C7 at a concrete store. -/
theorem c7_amended_401_taxonomy_witness :
    requireAuth (fun s => s) store0 none 0 = AuthOutcome.response 401 "Unauthorized" :=
  (c7_amended_401_taxonomy (fun s => s) store0 none 0).2.1 (Or.inl rfl)

/-! ## Verified-email claim -/

/-- A GitHub email selection that succeeds picked an email flagged both
primary and verified. -/
theorem getGitHubUserEmail_ok (emails : List GitHubUserEmail) (em : String)
    (h : getGitHubUserEmail emails = Except.ok em) :
    ∃ e ∈ emails, e.primary = true ∧ e.verified = true ∧ e.email = em := by
  unfold getGitHubUserEmail at h
  cases hf : emails.find? (fun e => e.primary && e.verified) with
  | none => rw [hf] at h; cases h
  | some e =>
    rw [hf] at h
    have hm := List.mem_of_find?_eq_some hf
    have hp := List.find?_some hf
    simp [Bool.and_eq_true] at hp
    cases h
    exact ⟨e, hm, hp.1, hp.2, rfl⟩

/-- When no email qualifies, GitHub email selection fails with the
no-verified-email error. -/
theorem getGitHubUserEmail_none (emails : List GitHubUserEmail)
    (h : ∀ e ∈ emails, e.primary = false ∨ e.verified = false) :
    getGitHubUserEmail emails = Except.error "No verified email found in GitHub account" := by
  unfold getGitHubUserEmail
  have hf : emails.find? (fun e => e.primary && e.verified) = none := by
    rw [List.find?_eq_none]
    intro e he
    rcases h e he with h' | h' <;> simp [h']
  rw [hf]

/-- A callback whose provider flow always fails leaves the store
untouched and sets no session cookie. -/
theorem oauthCallback_flow_failure (hashToken : String → String) (provider : String)
    (completeFlow : String → Except String NormalizedProfile) (f : TxFaults)
    (req : CallbackRequest) (st : Store) (freshToken : String) (now ttl : Nat)
    (h : ∀ code, ∃ e, completeFlow code = Except.error e) :
    (oauthCallback hashToken provider completeFlow f req st freshToken now ttl).store = st
    ∧ (oauthCallback hashToken provider completeFlow f req st freshToken now
        ttl).sessionCookie = none := by
  obtain ⟨c, s, cs⟩ := req
  cases c with
  | none => simp [oauthCallback]
  | some cv =>
    by_cases hc : cv = ""
    · simp [oauthCallback, hc]
    · cases s with
      | none => simp [oauthCallback, hc]
      | some sv =>
        by_cases hs : sv = ""
        · simp [oauthCallback, hc, hs]
        · cases cs with
          | none => simp [oauthCallback, hc, hs]
          | some csv =>
            by_cases hcs : csv = "" ∨ csv ≠ sv
            · simp [oauthCallback, hc, hs, hcs]
            · obtain ⟨e, he⟩ := h cv
              simp [oauthCallback, hc, hs, hcs, he]

/-- Claim C8: the Google profile fetch fails with the verification
error whenever the provider reports the email unverified; the GitHub
fetch returns an email flagged both primary and verified and fails with
the no-verified-email error when none qualifies; and in either failure
case the callback flow creates no user and no session. -/
theorem c8_verified_email_enforcement :
    (∀ p : GoogleUserProfile, p.verified_email = false →
      getGoogleUserProfile p = Except.error "Google email is not verified")
    ∧ (∀ userInfo emails np,
        getGitHubUserProfile userInfo emails = Except.ok np →
        ∃ e ∈ emails, e.primary = true ∧ e.verified = true ∧ e.email = np.email)
    ∧ (∀ emails : List GitHubUserEmail,
        (∀ e ∈ emails, e.primary = false ∨ e.verified = false) →
        getGitHubUserEmail emails
          = Except.error "No verified email found in GitHub account")
    ∧ (∀ hashToken exchangeGoogleCode googleProfileOf f req st freshToken now ttl,
        (∀ t, (googleProfileOf t).verified_email = false) →
        (oauthCallback hashToken "google"
            (handleGoogleCallback exchangeGoogleCode googleProfileOf) f req st freshToken
            now ttl).store = st
        ∧ (oauthCallback hashToken "google"
            (handleGoogleCallback exchangeGoogleCode googleProfileOf) f req st freshToken
            now ttl).sessionCookie = none)
    ∧ (∀ hashToken exchangeGitHubCode githubProfileOf githubEmailsOf f req st freshToken
          now ttl,
        (∀ t, ∀ e ∈ githubEmailsOf t, e.primary = false ∨ e.verified = false) →
        (oauthCallback hashToken "github"
            (handleGitHubCallback exchangeGitHubCode githubProfileOf githubEmailsOf) f req
            st freshToken now ttl).store = st
        ∧ (oauthCallback hashToken "github"
            (handleGitHubCallback exchangeGitHubCode githubProfileOf githubEmailsOf) f req
            st freshToken now ttl).sessionCookie = none) := by
  refine ⟨?_, ?_, ?_, ?_, ?_⟩
  · intro p h
    simp [getGoogleUserProfile, h]
  · intro userInfo emails np h
    unfold getGitHubUserProfile at h
    cases hem : getGitHubUserEmail emails with
    | error e => rw [hem] at h; cases h
    | ok em =>
      rw [hem] at h
      cases h
      exact getGitHubUserEmail_ok emails em hem
  · exact getGitHubUserEmail_none
  · intro hashToken exchangeGoogleCode googleProfileOf f req st freshToken now ttl h
    apply oauthCallback_flow_failure
    intro code
    unfold handleGoogleCallback
    cases hex : exchangeGoogleCode code with
    | error e => exact ⟨e, rfl⟩
    | ok t =>
      refine ⟨"Google email is not verified", ?_⟩
      simp [getGoogleUserProfile, h t]
  · intro hashToken exchangeGitHubCode githubProfileOf githubEmailsOf f req st freshToken
      now ttl h
    apply oauthCallback_flow_failure
    intro code
    unfold handleGitHubCallback
    cases hex : exchangeGitHubCode code with
    | error e => exact ⟨e, rfl⟩
    | ok t =>
      refine ⟨"No verified email found in GitHub account", ?_⟩
      simp [getGitHubUserProfile, getGitHubUserEmail_none (githubEmailsOf t) (h t)]

/-- Witness for claim C8: an unverified Google profile at a concrete
input. -/
theorem c8_verified_email_enforcement_witness :
    getGoogleUserProfile ⟨"gid", "a@x.com", false, "A", "pic"⟩
      = Except.error "Google email is not verified" :=
  c8_verified_email_enforcement.1 ⟨"gid", "a@x.com", false, "A", "pic"⟩ rfl

end OAuthAPI
